import Mathlib

/-
  Shallow embedding of BeerPongPlotter.py.

  Python numbers that may be ints or floats are modelled by PyNum
  (ints carry an integer, floats carry a rational; Python equality
  compares values across the two kinds, isinstance distinguishes them).
  Exceptions are modelled by the Err type and Except.
  The matplotlib rendering layer is out of scope; only the data
  assembled for rendering (cups with coordinates, colors, phantom
  flags) and the warning prints (modelled as a warnings list) are kept.
-/

deriving instance DecidableEq for Except

namespace BeerPong

/-- Constant Radius = 1 from the source. -/
def Radius : ℚ := 1

/-- Constant X_DIS = 2.1 from the source (column spacing). -/
def X_DIS : ℚ := 21 / 10

/-- Constant Y_DIS = 2.1 from the source (row spacing). -/
def Y_DIS : ℚ := 21 / 10

/-- A Python number: either an int or a float (modelled as a rational). -/
inductive PyNum where
  | int (n : ℤ)
  | float (q : ℚ)
deriving DecidableEq

/-- The numeric value of a Python number (Python comparisons and
arithmetic are value-based across int and float). -/
def PyNum.val : PyNum → ℚ
  | .int n => (n : ℚ)
  | .float q => q

/-- Models isinstance(x, int). -/
def PyNum.isInt : PyNum → Bool
  | .int _ => true
  | .float _ => false

/-- The integer carried by an int; only meaningful when isInt holds. -/
def PyNum.intVal : PyNum → ℤ
  | .int n => n
  | .float _ => 0

/-- The index argument of Position.__init__: normally an int, but the
phantom-list code can pass a whole (row, column) tuple as the index. -/
inductive PyIdx where
  | int (n : ℤ)
  | pair (p : PyNum × PyNum)
deriving DecidableEq

/-- Python equality between the index argument and an integer
(a tuple never equals an int). -/
def PyIdx.eqInt : PyIdx → ℤ → Bool
  | .int m, n => decide (m = n)
  | .pair _, _ => false

/-- Python tuple equality for pairs of numbers: componentwise
value equality. -/
def pyPairEq (a b : PyNum × PyNum) : Bool :=
  decide (a.1.val = b.1.val) && decide (a.2.val = b.2.val)

/-- The default position argument (0, 0), a pair of Python ints. -/
def zeroPair : PyNum × PyNum := (PyNum.int 0, PyNum.int 0)

/-- Exceptions raised by the source: ValueError with a message,
KeyError from a failed dict lookup, TypeError from unpacking a
non-pair, IndexError from indexing an empty list. -/
inductive Err where
  | valueError (msg : String)
  | keyError
  | typeError
  | indexError
deriving DecidableEq

/-- Models Python sum(range(n)): the sum of 0, 1, ..., n-1
(empty for n less than or equal to 0). -/
def sumRange (n : ℤ) : ℤ :=
  (Finset.range n.toNat).sum (fun i => (i : ℤ))

/-- Position._check_position: validates self.position against
self.index; returns ok () where the source returns True, and an
error where the source raises. -/
def checkPosition (index : PyIdx) (position : PyNum × PyNum) : Except Err Unit :=
  if position.1.val < 0 ∨ position.2.val < 0 then
    .error (.valueError "Position must be positive.")
  else if position.1.val < position.2.val then
    .error (.valueError "The row must be greater than or equal to the column.")
  else if position.1.val > 4 then
    .error (.valueError "The row must be less than or equal to 4.")
  else if position.2.val > 4 then
    .error (.valueError "The column must be less than or equal to 4.")
  else if position.1.isInt && position.2.isInt then
    if index.eqInt (sumRange position.1.intVal + position.2.intVal) then
      .ok ()
    else
      .error (.valueError "Index does not match the expected value for the position.")
  else
    .ok ()

/-- Position._init_xy_position: the (row, column) to (x, y) mapping.
Returns (x, y). -/
def initXYPosition (p : PyNum × PyNum) : ℚ × ℚ :=
  let maxWidth := (p.1.val - 1) * X_DIS
  let startX := -maxWidth / 2
  (startX + (p.2.val - 1) * X_DIS, -(p.1.val - 1) * Y_DIS)

/-- The fixed index to (row, column) lookup table inside
Position._init_xy_index; a missing key is a KeyError, modelled
as none. -/
def mapping : PyIdx → Option (ℤ × ℤ)
  | .int 1 => some (1, 1)
  | .int 2 => some (2, 1)
  | .int 3 => some (2, 2)
  | .int 4 => some (3, 1)
  | .int 5 => some (3, 2)
  | .int 6 => some (3, 3)
  | .int 7 => some (4, 1)
  | .int 8 => some (4, 2)
  | .int 9 => some (4, 3)
  | .int 10 => some (4, 4)
  | _ => none

/-- The state of a constructed Position object: the stored index,
the (possibly overwritten) position, and the computed coordinates. -/
structure PyPosition where
  index : PyIdx
  position : PyNum × PyNum
  x : ℚ
  y : ℚ
deriving DecidableEq

/-- Position._init_xy_index: looks the index up in the table
(KeyError when absent), overwrites self.position with the table
pair, and computes coordinates from it via _init_xy_position. -/
def initXYIndexPos (index : PyIdx) : Except Err PyPosition :=
  match mapping index with
  | none => .error .keyError
  | some rc =>
      let pos : PyNum × PyNum := (PyNum.int rc.1, PyNum.int rc.2)
      let xy := initXYPosition pos
      .ok { index := index, position := pos, x := xy.1, y := xy.2 }

/-- Position.__init__: when the position argument equals (0, 0) the
index path is taken; otherwise _check_position runs (propagating its
error) and the coordinates come from _init_xy_position. -/
def mkPosition (index : PyIdx) (position : PyNum × PyNum) : Except Err PyPosition :=
  if pyPairEq position zeroPair then
    initXYIndexPos index
  else
    match checkPosition index position with
    | .error e => .error e
    | .ok _ =>
        let xy := initXYPosition position
        .ok { index := index, position := position, x := xy.1, y := xy.2 }

/-- The state of a constructed BeerPongCup. -/
structure Cup where
  pos : PyPosition
  radius : ℚ
  color : String
  phantom : Bool
deriving DecidableEq

/-- BeerPongCup.__init__ with the default radius and color: builds the
Position part and sets phantom to false. -/
def mkCup (index : PyIdx) (position : PyNum × PyNum) : Except Err Cup :=
  (mkPosition index position).map
    (fun p => { pos := p, radius := Radius, color := "red", phantom := false })

/-- Sets the phantom flag, as done on cups built by _init_phantoms. -/
def setPhantom (c : Cup) : Cup := { c with phantom := true }

/-- An element of a phantoms list: an int index or a (row, column)
pair, the two shapes the source distinguishes with isinstance. -/
inductive PhantomElem where
  | pint (n : ℤ)
  | ppair (p : PyNum × PyNum)
deriving DecidableEq

/-- A Python for-loop that builds a list, raising on the first
element whose construction raises. -/
def mapME {α β : Type} (f : α → Except Err β) : List α → Except Err (List β)
  | [] => .ok []
  | a :: l =>
      match f a with
      | .error e => .error e
      | .ok b =>
          match mapME f l with
          | .error e => .error e
          | .ok bs => .ok (b :: bs)

/-- The loop body of _init_phantoms when the first element is an int:
every element is passed as the index argument of BeerPongCup (a pair
element becomes a tuple index, whose table lookup is a KeyError), and
the cup is marked phantom. -/
def phantomFromIdx : PhantomElem → Except Err Cup
  | .pint n => (mkCup (.int n) zeroPair).map setPhantom
  | .ppair p => (mkCup (.pair p) zeroPair).map setPhantom

/-- The loop body of _init_phantoms when the first element is a pair:
each element is unpacked as (x, y) (an int element is a TypeError)
and a cup with index -1 is built and marked phantom. -/
def phantomFromPos : PhantomElem → Except Err Cup
  | .pint _ => .error .typeError
  | .ppair p => (mkCup (.int (-1)) p).map setPhantom

/-- BeerPongConfig._init_phantoms: dispatches on the type of the first
element (an empty list is an IndexError at phantoms[0]). -/
def initPhantoms (phantoms : List PhantomElem) : Except Err (List Cup) :=
  match phantoms with
  | [] => .error .indexError
  | first :: _ =>
      match first with
      | .pint _ => mapME phantomFromIdx phantoms
      | .ppair _ => mapME phantomFromPos phantoms

/-- BeerPongConfig._init_indices: one cup per index. -/
def initIndicesCups (l : List ℤ) : Except Err (List Cup) :=
  mapME (fun i => mkCup (.int i) zeroPair) l

/-- BeerPongConfig._init_positions: one cup per pair, each built with
index -1. -/
def initPositionsCups (l : List (PyNum × PyNum)) : Except Err (List Cup) :=
  mapME (fun p => mkCup (.int (-1)) p) l

/-- BeerPongConfig._complete_table: cups for indices 1 through 10. -/
def completeTable : Except Err (List Cup) :=
  mapME (fun i => mkCup (.int i) zeroPair)
    ((List.range 10).map (fun i => (i : ℤ) + 1))

/-- The cup-assembly part of BeerPongConfig.__init__ (everything
before the warning prints): extends the cup list from each input
that is present, and falls back to the complete table when all
three inputs are absent. -/
def assembleCups (indices : Option (List ℤ)) (positions : Option (List (PyNum × PyNum)))
    (phantoms : Option (List PhantomElem)) : Except Err (List Cup) := do
  let c1 ← match indices with
    | some l => initIndicesCups l
    | none => pure []
  let c2 ← match positions with
    | some l => initPositionsCups l
    | none => pure []
  let c3 ← match phantoms with
    | some l => initPhantoms l
    | none => pure []
  match indices, positions, phantoms with
  | none, none, none => do
      let c4 ← completeTable
      pure (c1 ++ c2 ++ c3 ++ c4)
  | _, _, _ => pure (c1 ++ c2 ++ c3)

/-- The warning prints at the end of BeerPongConfig.__init__,
modelled as a list of emitted warning lines. -/
def warnOf (cups : List Cup) : List String :=
  if cups.length = 0 then ["Warning: No cups were created."]
  else if cups.length > 10 then ["Warning: More than 10 cups were created."]
  else []

/-- The state of a constructed BeerPongConfig, with the warning
prints reified as a field. -/
structure Config where
  title : String
  cups : List Cup
  warnings : List String
deriving DecidableEq

/-- BeerPongConfig.__init__: assembles the cups and records the
warnings; an exception during assembly propagates. -/
def mkConfig (title : String) (indices : Option (List ℤ))
    (positions : Option (List (PyNum × PyNum)))
    (phantoms : Option (List PhantomElem)) : Except Err Config :=
  (assembleCups indices positions phantoms).map
    (fun cups => { title := title, cups := cups, warnings := warnOf cups })

/-- Whether a construction succeeded. -/
def isOkE {α : Type} : Except Err α → Bool
  | .ok _ => true
  | .error _ => false

/-- The result of a successful construction, if any. -/
def toOptionE {α : Type} : Except Err α → Option α
  | .ok a => some a
  | .error _ => none

/-- The closed-form index the spec assigns to an integer (row, column):
sum of 1 through row-1, plus column. -/
def specIndex (r c : ℤ) : ℤ :=
  (Finset.Icc (1 : ℤ) (r - 1)).sum (fun i => i) + c

/-- Coordinates produced when resolving by index alone. -/
def coordsViaIndex (i : ℤ) : Except Err (ℚ × ℚ) :=
  (mkPosition (.int i) zeroPair).map (fun r => (r.x, r.y))

/-- Coordinates produced when resolving from the lookup-table
(row, column) pair for the index, supplied together with the index. -/
def coordsViaTable (i : ℤ) : Except Err (ℚ × ℚ) :=
  match mapping (.int i) with
  | none => .error .keyError
  | some rc =>
      (mkPosition (.int i) (PyNum.int rc.1, PyNum.int rc.2)).map (fun r => (r.x, r.y))

lemma isOkE_map {a b : Type} (f : a → b) (x : Except Err a) :
    isOkE (x.map f) = isOkE x := by
  cases x <;> rfl

lemma mapME_ok_of {a b : Type} (f : a → Except Err b) (g : a → b) (l : List a)
    (h : ∀ x ∈ l, f x = .ok (g x)) : mapME f l = .ok (l.map g) := by
  induction l with
  | nil => rfl
  | cons x l ih =>
      rw [List.map_cons, mapME, h x (List.mem_cons_self x l),
        ih (fun y hy => h y (List.mem_cons_of_mem x hy))]

lemma mapME_not_ok {a b : Type} (f : a → Except Err b) (l : List a)
    (h : ∃ x ∈ l, isOkE (f x) = false) : isOkE (mapME f l) = false := by
  induction l with
  | nil => simp at h
  | cons x l ih =>
      rcases h with ⟨y, hy, hfy⟩
      rcases List.mem_cons.mp hy with rfl | hy2
      · cases hfx : f y with
        | error e => simp [mapME, hfx, isOkE]
        | ok v => rw [hfx] at hfy; simp [isOkE] at hfy
      · cases hfx : f x with
        | error e => simp [mapME, hfx, isOkE]
        | ok v =>
            have hrest := ih ⟨y, hy2, hfy⟩
            cases hrest2 : mapME f l with
            | error e => simp [mapME, hfx, hrest2, isOkE]
            | ok vs => rw [hrest2] at hrest; simp [isOkE] at hrest

lemma pyPairEq_zero_iff (p : PyNum × PyNum) :
    pyPairEq p zeroPair = false ↔ ¬(p.1.val = 0 ∧ p.2.val = 0) := by
  simp [pyPairEq, zeroPair, PyNum.val]

lemma checkPosition_ok (idx : PyIdx) (p : PyNum × PyNum)
    (h0 : 0 ≤ p.1.val) (h0c : 0 ≤ p.2.val) (hcr : p.2.val ≤ p.1.val) (hr4 : p.1.val ≤ 4)
    (hint : (p.1.isInt && p.2.isInt) = false) :
    checkPosition idx p = .ok () := by
  unfold checkPosition
  rw [if_neg (by push_neg; exact ⟨h0, h0c⟩), if_neg (not_lt.mpr hcr),
    if_neg (not_lt.mpr hr4), if_neg (not_lt.mpr (hcr.trans hr4)), hint]
  simp

lemma mkPosition_pos_ok (idx : PyIdx) (p : PyNum × PyNum)
    (hnz : pyPairEq p zeroPair = false) (hchk : checkPosition idx p = .ok ()) :
    mkPosition idx p =
      .ok ⟨idx, p, (initXYPosition p).1, (initXYPosition p).2⟩ := by
  simp [mkPosition, hnz, hchk]

lemma checkPosition_error_valueError (idx : PyIdx) (p : PyNum × PyNum) (e : Err)
    (h : checkPosition idx p = .error e) : ∃ msg, e = .valueError msg := by
  unfold checkPosition at h
  split_ifs at h <;> injection h with h2 <;> exact ⟨_, h2.symm⟩

lemma checkPosition_ok_bounds (idx : PyIdx) (p : PyNum × PyNum) (u : Unit)
    (h : checkPosition idx p = .ok u) :
    0 ≤ p.1.val ∧ 0 ≤ p.2.val ∧ p.2.val ≤ p.1.val ∧ p.1.val ≤ 4 ∧ p.2.val ≤ 4 := by
  unfold checkPosition at h
  split_ifs at h with h1 h2 h3 h4 <;>
    first
      | exact (Except.noConfusion h)
      | (push_neg at h1
         exact ⟨h1.1, h1.2, not_lt.mp h2, not_lt.mp h3, not_lt.mp h4⟩)


lemma initXY_x (p : PyNum × PyNum) :
    (initXYPosition p).1 = -((p.1.val - 1) * X_DIS) / 2 + (p.2.val - 1) * X_DIS := rfl

lemma initXY_y (p : PyNum × PyNum) :
    (initXYPosition p).2 = -(p.1.val - 1) * Y_DIS := rfl

lemma sumRange_spec (r c : ℤ) (h0 : 0 ≤ r) (h4 : r ≤ 4) :
    sumRange r + c = specIndex r c := by
  have h : sumRange r = (Finset.Icc (1 : ℤ) (r - 1)).sum (fun i => i) := by
    interval_cases r <;> decide
  rw [specIndex, h]

lemma checkPosition_int_ok (n r c : ℤ)
    (h : checkPosition (.int n) (PyNum.int r, PyNum.int c) = .ok ()) :
    0 ≤ r ∧ r ≤ 4 ∧ n = sumRange r + c := by
  have hb := checkPosition_ok_bounds _ _ _ h
  simp only [PyNum.val] at hb
  unfold checkPosition at h
  simp only [PyNum.val, PyNum.isInt, PyNum.intVal, PyIdx.eqInt, Bool.and_self,
    decide_eq_true_eq] at h
  split_ifs at h with h1 h2 h3 h4 h5
  · exact ⟨by exact_mod_cast hb.1, by exact_mod_cast hb.2.2.2.1, h5⟩

/-- Claim C4: for every explicitly supplied (row, column) pair with
column greater than row, or row greater than 4, or column greater than 4, or
either component negative, the resolver raises a validation error rather than
producing coordinates, whatever the index. -/
theorem c4_theorem (idx : PyIdx) (p : PyNum × PyNum)
    (h : p.1.val < p.2.val ∨ 4 < p.1.val ∨ 4 < p.2.val ∨ p.1.val < 0 ∨ p.2.val < 0) :
    ∃ msg, mkPosition idx p = .error (.valueError msg) := by
  have hnz : pyPairEq p zeroPair = false := by
    rw [pyPairEq_zero_iff]
    rintro ⟨e1, e2⟩
    rw [e1, e2] at h
    norm_num at h
  simp only [mkPosition, hnz, Bool.false_eq_true, if_false]
  cases hchk : checkPosition idx p with
  | error e =>
      obtain ⟨msg, rfl⟩ := checkPosition_error_valueError _ _ _ hchk
      exact ⟨msg, rfl⟩
  | ok u =>
      exfalso
      obtain ⟨b1, b2, b3, b4, b5⟩ := checkPosition_ok_bounds _ _ _ hchk
      rcases h with h | h | h | h | h <;> linarith

/-- Witness for claim C4 at index 1 with the invalid pair (1, 2)
(column exceeds row). -/
theorem c4_witness :
    ∃ msg, mkPosition (PyIdx.int 1) (PyNum.int 1, PyNum.int 2)
      = .error (.valueError msg) :=
  c4_theorem (PyIdx.int 1) (PyNum.int 1, PyNum.int 2) (by norm_num [PyNum.val])

/-- Claim C5: for every (row, column) the resolver accepts, the produced
coordinates are exactly y = -(row - 1) * Y_DIS and
x = -((row - 1) * X_DIS) / 2 + (column - 1) * X_DIS, where (row, column) is the
resolved position stored on the object (the supplied pair when it was validated,
the table pair when resolution went through the index). -/
theorem c5_theorem (idx : PyIdx) (p : PyNum × PyNum) (res : PyPosition)
    (hok : mkPosition idx p = .ok res) :
    res.x = -((res.position.1.val - 1) * X_DIS) / 2 + (res.position.2.val - 1) * X_DIS ∧
    res.y = -(res.position.1.val - 1) * Y_DIS := by
  unfold mkPosition at hok
  by_cases hz : pyPairEq p zeroPair = true
  · rw [if_pos hz] at hok
    unfold initXYIndexPos at hok
    cases hm : mapping idx with
    | none => rw [hm] at hok; exact (Except.noConfusion hok)
    | some rc =>
        rw [hm] at hok
        injection hok with hok2
        subst hok2
        exact ⟨initXY_x _, initXY_y _⟩
  · rw [if_neg hz] at hok
    cases hchk : checkPosition idx p with
    | error e => rw [hchk] at hok; exact (Except.noConfusion hok)
    | ok u =>
        rw [hchk] at hok
        injection hok with hok2
        subst hok2
        exact ⟨initXY_x _, initXY_y _⟩

/-- Witness for claim C5 at index 5 with pair (3, 2): resolution succeeds and the
coordinates satisfy the closed-form mapping, evaluating to x = 0 and y = -4.2. -/
theorem c5_witness :
    ∃ res, mkPosition (PyIdx.int 5) (PyNum.int 3, PyNum.int 2) = Except.ok res ∧
      res.x = -((res.position.1.val - 1) * X_DIS) / 2 + (res.position.2.val - 1) * X_DIS ∧
      res.y = -(res.position.1.val - 1) * Y_DIS ∧
      res.x = 0 ∧ res.y = -(21 / 5) := by
  refine ⟨_, rfl,
    (c5_theorem (PyIdx.int 5) (PyNum.int 3, PyNum.int 2) _ rfl).1,
    (c5_theorem (PyIdx.int 5) (PyNum.int 3, PyNum.int 2) _ rfl).2, ?_, ?_⟩ <;>
    norm_num [initXYPosition, X_DIS, Y_DIS, PyNum.val]

/-- Claim C3 counterexample: constructing an item with explicit index 5 and the
explicit all-integer pair (0, 0) succeeds although 5 differs from the closed-form
index of (0, 0), which is 0: the pair (0, 0) coincides with the default argument
sentinel, so the consistency check never runs. -/
theorem c3_counterexample :
    isOkE (mkPosition (PyIdx.int 5) (PyNum.int 0, PyNum.int 0)) = true ∧
    (5 : ℤ) ≠ specIndex 0 0 := by
  constructor
  · rfl
  · decide

/-- Claim C3 (amended): for every item constructed with both an explicit index
and an explicit all-integer (row, column) pair other than (0, 0), construction
succeeds only if the index equals sum(1..row-1) + column, and if the supplied
index differs from that closed-form value, construction raises a validation
error. -/
theorem c3_amended_theorem (n r c : ℤ) (h : ¬(r = 0 ∧ c = 0)) :
    (isOkE (mkPosition (.int n) (PyNum.int r, PyNum.int c)) = true → n = specIndex r c) ∧
    (n ≠ specIndex r c →
      ∃ msg, mkPosition (.int n) (PyNum.int r, PyNum.int c) = .error (.valueError msg)) := by
  have hnz : pyPairEq (PyNum.int r, PyNum.int c) zeroPair = false := by
    rw [pyPairEq_zero_iff]
    simpa [PyNum.val] using h
  constructor
  · intro hok
    simp only [mkPosition, hnz, Bool.false_eq_true, if_false] at hok
    cases hchk : checkPosition (.int n) (PyNum.int r, PyNum.int c) with
    | error e => rw [hchk] at hok; simp [isOkE] at hok
    | ok u =>
        obtain ⟨g0, g4, gn⟩ := checkPosition_int_ok n r c (by rw [hchk])
        rw [gn]
        exact sumRange_spec r c g0 g4
  · intro hne
    simp only [mkPosition, hnz, Bool.false_eq_true, if_false]
    cases hchk : checkPosition (.int n) (PyNum.int r, PyNum.int c) with
    | error e =>
        obtain ⟨msg, rfl⟩ := checkPosition_error_valueError _ _ _ hchk
        exact ⟨msg, rfl⟩
    | ok u =>
        exfalso
        obtain ⟨g0, g4, gn⟩ := checkPosition_int_ok n r c (by rw [hchk])
        exact hne (gn.trans (sumRange_spec r c g0 g4))

/-- Witness for the amended claim C3: index 5 with the all-integer pair (2, 1),
whose closed-form index is 2, is rejected with a ValueError. -/
theorem c3_witness :
    ∃ msg, mkPosition (.int 5) (PyNum.int 2, PyNum.int 1)
      = .error (.valueError msg) :=
  (c3_amended_theorem 5 2 1 (by norm_num)).2 (by decide)


/-- Claim C1 counterexample: the pair (1, 1) is a valid position (column at most
row at most 4, both non-negative), yet building a diagram with it as the explicit
positions input fails: _init_positions constructs the cup with index -1, and for an
all-integer pair the index consistency check then rejects -1. -/
theorem c1_counterexample :
    mkConfig "t" none (some [(PyNum.int 1, PyNum.int 1)]) none
      = Except.error (Err.valueError
          "Index does not match the expected value for the position.") := by
  decide

/-- Claim C1 (amended): for every title and every non-empty list of valid
(row, column) positions each of which has at least one non-integer component and
is not value-equal to (0, 0), building a diagram with that list as the explicit
positions input succeeds and yields one rendered item per supplied position,
located at the coordinates the resolver mapping (_init_xy_position) assigns to
that (row, column). -/
theorem c1_amended_theorem (title : String) (ps : List (PyNum × PyNum))
    (hne : ps ≠ [])
    (hv : ∀ p ∈ ps, 0 ≤ p.1.val ∧ 0 ≤ p.2.val ∧ p.2.val ≤ p.1.val ∧ p.1.val ≤ 4
      ∧ (p.1.isInt && p.2.isInt) = false ∧ ¬(p.1.val = 0 ∧ p.2.val = 0)) :
    ∃ cfg, mkConfig title none (some ps) none = Except.ok cfg ∧
      cfg.cups.length = ps.length ∧
      cfg.cups.map (fun c => (c.pos.x, c.pos.y)) = ps.map initXYPosition := by
  have hcups : initPositionsCups ps = .ok (ps.map (fun p =>
      (⟨⟨.int (-1), p, (initXYPosition p).1, (initXYPosition p).2⟩,
        Radius, "red", false⟩ : Cup))) := by
    apply mapME_ok_of
    intro p hp
    obtain ⟨h0, h0c, hcr, hr4, hint, hnz⟩ := hv p hp
    rw [mkCup, mkPosition_pos_ok _ _ ((pyPairEq_zero_iff p).mpr hnz)
      (checkPosition_ok _ _ h0 h0c hcr hr4 hint)]
    rfl
  have hasm : assembleCups none (some ps) none
      = (initPositionsCups ps).map (fun c2 => [] ++ c2 ++ []) := by
    cases hI : initPositionsCups ps <;>
      simp [assembleCups, hI, Except.map]
  rw [hcups] at hasm
  have hasm2 : assembleCups none (some ps) none = Except.ok (ps.map (fun p =>
      (⟨⟨.int (-1), p, (initXYPosition p).1, (initXYPosition p).2⟩,
        Radius, "red", false⟩ : Cup))) := by
    rw [hasm]
    simp [Except.map]
  have hmk : mkConfig title none (some ps) none = Except.ok
      ⟨title, ps.map (fun p =>
          (⟨⟨.int (-1), p, (initXYPosition p).1, (initXYPosition p).2⟩,
            Radius, "red", false⟩ : Cup)),
        warnOf (ps.map (fun p =>
          (⟨⟨.int (-1), p, (initXYPosition p).1, (initXYPosition p).2⟩,
            Radius, "red", false⟩ : Cup)))⟩ := by
    rw [mkConfig, hasm2]
    rfl
  exact ⟨_, hmk, by simp, by simp [List.map_map]⟩

/-- Witness for the amended claim C1 at the concrete singleton list
containing the half-step position (1.5, 1.5). -/
theorem c1_witness :
    ∃ cfg, mkConfig "w" none
        (some [(PyNum.float (3 / 2), PyNum.float (3 / 2))]) none = Except.ok cfg ∧
      cfg.cups.length = [(PyNum.float (3 / 2), PyNum.float (3 / 2))].length ∧
      cfg.cups.map (fun c => (c.pos.x, c.pos.y))
        = [(PyNum.float (3 / 2), PyNum.float (3 / 2))].map initXYPosition :=
  c1_amended_theorem "w" [(PyNum.float (3 / 2), PyNum.float (3 / 2))]
    (by simp)
    (by intro p hp; simp at hp; subst hp; norm_num [PyNum.val, PyNum.isInt])

/-- Claim C2 counterexample: the mixed phantom list with the integer 1 first and
the pair (2, 1) second raises a KeyError (the pair is used as a lookup key in the
index table), not the dedicated validation error (a ValueError). -/
theorem c2_counterexample :
    mkConfig "t" none none
        (some [.pint 1, .ppair (PyNum.int 2, PyNum.int 1)])
      = Except.error Err.keyError := by
  decide

lemma phantomFromIdx_ppair (p : PyNum × PyNum) :
    phantomFromIdx (.ppair p) = .error .keyError := rfl

lemma phantomFromPos_pint (n : ℤ) :
    phantomFromPos (.pint n) = .error .typeError := rfl

lemma isOkE_bind_pure {a b : Type} (x : Except Err a) (f : a → b) :
    isOkE (x >>= fun v => pure (f v)) = isOkE x := by
  cases x <;> rfl

/-- Claim C2 (amended): for every phantom input list that mixes element types
(some integer indices and some (row, column) pairs in the same list), diagram
assembly raises an error, though not necessarily the dedicated validation error:
with an integer first the stray pair fails the index-table lookup (KeyError), and
with a pair first the stray integer fails tuple unpacking (TypeError); the
explicit ValueError branch only fires when the first element is neither kind. -/
theorem c2_amended_theorem (title : String) (l : List PhantomElem)
    (hint : ∃ n, PhantomElem.pint n ∈ l) (hpair : ∃ p, PhantomElem.ppair p ∈ l) :
    isOkE (mkConfig title none none (some l)) = false := by
  obtain ⟨n, hn⟩ := hint
  obtain ⟨p, hp⟩ := hpair
  have hl : isOkE (initPhantoms l) = false := by
    cases l with
    | nil => simp at hn
    | cons a rest =>
        cases a with
        | pint m =>
            rw [initPhantoms]
            exact mapME_not_ok _ _ ⟨.ppair p, hp, by rw [phantomFromIdx_ppair]; rfl⟩
        | ppair q =>
            rw [initPhantoms]
            exact mapME_not_ok _ _ ⟨.pint n, hn, by rw [phantomFromPos_pint]; rfl⟩
  have hasm : assembleCups none none (some l)
      = (initPhantoms l) >>= fun c3 => pure ([] ++ [] ++ c3) := rfl
  rw [mkConfig, isOkE_map, hasm, isOkE_bind_pure]
  exact hl

/-- Witness for the amended claim C2 at a concrete mixed list with a pair first
and an integer second. -/
theorem c2_witness :
    isOkE (mkConfig "t" none none
      (some [.ppair (PyNum.int 1, PyNum.int 1), .pint 3])) = false :=
  c2_amended_theorem "t" _ ⟨3, by simp⟩ ⟨(PyNum.int 1, PyNum.int 1), by simp⟩

/-- Claim C6: for every index in 1..10, resolving by index alone (which derives
(row, column) from the fixed lookup table) and resolving directly from the
table pair supplied together with the matching index produce identical (x, y)
coordinates, and both succeed. -/
theorem c6_theorem (i : ℤ) (h1 : 1 ≤ i) (h2 : i ≤ 10) :
    coordsViaIndex i = coordsViaTable i ∧ isOkE (coordsViaIndex i) = true := by
  interval_cases i <;> exact ⟨rfl, rfl⟩

/-- Witness for claim C6 at index 5. -/
theorem c6_witness :
    coordsViaIndex 5 = coordsViaTable 5 ∧ isOkE (coordsViaIndex 5) = true :=
  c6_theorem 5 (by norm_num) (by norm_num)

/-- Claim C7: building a diagram with none of the three inputs yields exactly
10 items, one per slot index 1..10 in order, every one of them non-phantom. -/
theorem c7_theorem (title : String) :
    ∃ cfg, mkConfig title none none none = Except.ok cfg ∧
      cfg.cups.length = 10 ∧
      cfg.cups.map (fun c => c.pos.index)
        = [.int 1, .int 2, .int 3, .int 4, .int 5, .int 6, .int 7, .int 8, .int 9, .int 10] ∧
      ∀ c ∈ cfg.cups, c.phantom = false := by
  refine ⟨_, rfl, rfl, rfl, ?_⟩
  intro c hc
  fin_cases hc <;> rfl

/-- Claim C8: building a diagram whose only input is the phantom index list
1..10 yields exactly 10 items, every one of them marked phantom. -/
theorem c8_theorem (title : String) :
    ∃ cfg, mkConfig title none none
        (some [.pint 1, .pint 2, .pint 3, .pint 4, .pint 5,
               .pint 6, .pint 7, .pint 8, .pint 9, .pint 10]) = Except.ok cfg ∧
      cfg.cups.length = 10 ∧
      ∀ c ∈ cfg.cups, c.phantom = true := by
  refine ⟨_, rfl, rfl, ?_⟩
  intro c hc
  fin_cases hc <;> rfl

/-- Claim C9: for every diagram construction that completes its item assembly,
construction succeeds with the assembled item list kept unchanged, and an item
count of 0 or of more than 10 is only reported as a warning diagnostic: the
warning list is non-empty exactly for those anomalous counts, and the
configuration is never rejected because of them. -/
theorem c9_theorem (title : String) (indices : Option (List ℤ))
    (positions : Option (List (PyNum × PyNum))) (phantoms : Option (List PhantomElem))
    (cups : List Cup) (h : assembleCups indices positions phantoms = .ok cups) :
    mkConfig title indices positions phantoms
      = .ok { title := title, cups := cups, warnings := warnOf cups } ∧
    ((cups.length = 0 ∨ 10 < cups.length) ↔ warnOf cups ≠ []) := by
  constructor
  · rw [mkConfig, h]
    rfl
  · rw [warnOf]
    split_ifs with w1 w2 <;> simp_all

/-- Witness for claim C9: an explicit empty indices list assembles zero cups,
construction still succeeds, and the zero-count warning is emitted. -/
theorem c9_witness :
    mkConfig "t" (some []) none none
      = .ok { title := "t", cups := [], warnings := warnOf [] } ∧
    ((([] : List Cup).length = 0 ∨ 10 < ([] : List Cup).length) ↔ warnOf [] ≠ []) :=
  c9_theorem "t" (some []) none none [] rfl

/-- Claim C10: for every index, constructing an item with the explicit position
(0, 0) is treated exactly as if no position were supplied: the index path
_init_xy_index runs, (row, column) is taken from the index lookup table, and
none of the position validation rules run on the supplied (0, 0); in particular
index 5 with (0, 0) would fail the consistency check if it ran, yet construction
succeeds. -/
theorem c10_theorem (idx : PyIdx) :
    mkPosition idx (PyNum.int 0, PyNum.int 0) = initXYIndexPos idx ∧
    (toOptionE (mkPosition idx (PyNum.int 0, PyNum.int 0))).map (fun res => res.position)
      = (mapping idx).map (fun rc => (PyNum.int rc.1, PyNum.int rc.2)) ∧
    (∃ msg, checkPosition (PyIdx.int 5) (PyNum.int 0, PyNum.int 0)
        = .error (.valueError msg)) ∧
    isOkE (mkPosition (PyIdx.int 5) (PyNum.int 0, PyNum.int 0)) = true := by
  have h1 : mkPosition idx (PyNum.int 0, PyNum.int 0) = initXYIndexPos idx := rfl
  refine ⟨h1, ?_,
    ⟨"Index does not match the expected value for the position.", by decide⟩, rfl⟩
  rw [h1]
  unfold initXYIndexPos
  cases hm : mapping idx <;> simp [hm, toOptionE]

end BeerPong
